import Mathlib

/-!
Verification development for the rate-limited, monitored eBay API client core
of ResellerOS: the token-bucket `RateLimiter`, the sliding-window
`RequestTracker` (both from `src/integrations/ebay/rate_limiter.py`), and the
authenticated request wrapper `EbayInventoryAPI._make_request`
(`src/integrations/ebay/inventory_api.py`).

Modelling conventions:
- wall-clock timestamps and float quantities are modelled as rationals `ℚ`;
- the `time.sleep(0.1)` polling loop of `RateLimiter.acquire` is modelled as a
  discrete clock advancing by `1/10` per iteration, with the poll count bounded
  by a fuel argument chosen large enough that the loop always exits through the
  success or timeout branch (`acquireGo_fuel` rules out fuel exhaustion);
- HTTP and authenticator effects are supplied as explicit environment values:
  the response of each of the at-most-two HTTP attempts is an
  `Except String HttpResponse` (`.error msg` models a `requests.RequestException`,
  i.e. a transport failure with no HTTP response);
- the three exception classes raised by `_make_request` (`EbayAPIError`,
  `EbayAuthError`, `EbayRateLimitError` from `src/core/exceptions.py`) become
  the constructors of `EbayError`, and a raising call becomes `Except.error`.
-/

namespace ResellerOS

/-- State of the token-bucket rate limiter (`RateLimiter` in
`rate_limiter.py`): `calls_per_second` is the refill rate, `burst` the
capacity, `tokens` the current balance, `last_update` the time of the last
refill computation. -/
structure RateLimiter where
  calls_per_second : ℚ
  burst : ℚ
  tokens : ℚ
  last_update : ℚ
deriving Repr, DecidableEq

/-- Constructor `RateLimiter.__init__`: the bucket starts full (`self.tokens = burst`)
with `last_update` set to the construction time. -/
def mkRateLimiter (calls_per_second burst now : ℚ) : RateLimiter :=
  { calls_per_second := calls_per_second, burst := burst,
    tokens := burst, last_update := now }

/-- Refill step `RateLimiter._add_tokens`: refill proportional to elapsed time, capped at
`burst`, and stamp `last_update` with the current time. -/
def addTokens (rl : RateLimiter) (now : ℚ) : RateLimiter :=
  { rl with
    tokens := min rl.burst (rl.tokens + (now - rl.last_update) * rl.calls_per_second),
    last_update := now }

/-- One-step unrolling of the `while True` poll loop of `RateLimiter.acquire`:
at each poll the limiter refills, then either deducts `cost` and succeeds, or
returns failure once `now - start ≥ timeout`, or sleeps `0.1` seconds and polls
again. The fuel argument only bounds the recursion; `acquire` passes enough
fuel that the fuel-exhaustion branch is unreachable (`acquireGo_fuel`). -/
def acquireGo : ℕ → RateLimiter → ℚ → ℚ → ℚ → ℚ → RateLimiter × Bool
  | 0, rl, _, _, _, _ => (rl, false)
  | fuel + 1, rl, cost, timeout, start, now =>
      if cost ≤ (addTokens rl now).tokens then
        ({ addTokens rl now with tokens := (addTokens rl now).tokens - cost }, true)
      else if timeout ≤ now - start then (addTokens rl now, false)
      else acquireGo fuel (addTokens rl now) cost timeout start (now + 1/10)

/-- Admission call `RateLimiter.acquire(tokens, timeout)` started at time `start`: polls at
`start, start + 0.1, start + 0.2, …`. The loop returns failure at the first
poll `k` with `k/10 ≥ timeout`, so `⌈timeout·10⌉ + 1` polls always suffice. -/
def acquire (rl : RateLimiter) (cost timeout start : ℚ) : RateLimiter × Bool :=
  acquireGo ((⌈timeout * 10⌉).toNat + 1) rl cost timeout start start

/-- Sliding-window request log (`RequestTracker` in `rate_limiter.py`).
`requests` is the deque of `(timestamp, endpoint, status_code)` records,
oldest first. -/
structure RequestTracker where
  window_size : ℚ
  requests : List (ℚ × String × ℤ)
deriving Repr, DecidableEq

/-- Constructor `RequestTracker.__init__` (default `window_size = 3600`). -/
def mkRequestTracker (window_size : ℚ) : RequestTracker :=
  { window_size := window_size, requests := [] }

/-- The `while self.requests and self.requests[0][0] < now - self.window_size:
popleft()` eviction loop shared by `record_request` and `get_stats`. -/
def pruneRequests (window_size now : ℚ) (l : List (ℚ × String × ℤ)) :
    List (ℚ × String × ℤ) :=
  l.dropWhile (fun r => r.1 < now - window_size)

/-- Recording call `RequestTracker.record_request`: evict stale records, then append the new
record at the tail. -/
def record_request (tr : RequestTracker) (now : ℚ) (endpoint : String)
    (status_code : ℤ) : RequestTracker :=
  { tr with
    requests := pruneRequests tr.window_size now tr.requests
      ++ [(now, endpoint, status_code)] }

/-- The dictionary returned by `RequestTracker.get_stats`. -/
structure TrackerStats where
  total_requests : ℕ
  success_count : ℕ
  error_count : ℕ
  requests_per_minute : ℚ
  window_size : ℚ
deriving Repr, DecidableEq

/-- Python's builtin `round` on a rational: round half to even. -/
def roundHalfEven (x : ℚ) : ℤ :=
  if Int.fract x = 1/2 then (if ⌊x⌋ % 2 = 0 then ⌊x⌋ else ⌊x⌋ + 1) else round x

/-- Python `round(x, 2)`: round to two decimal places, half to even. -/
def round2 (x : ℚ) : ℚ := (roundHalfEven (x * 100) : ℚ) / 100

/-- The `200 <= status < 300` success test of `get_stats`. -/
def isSuccessStatus (s : ℤ) : Bool := decide (200 ≤ s) && decide (s < 300)

/-- Statistics call `RequestTracker.get_stats`: evict stale records (a persistent mutation of
the deque, hence the returned tracker), then compute the aggregates.
`requests_per_minute` is `round(total / time_span * 60, 2)` when the pruned
deque is nonempty and `time_span > 0`, and `0` otherwise. -/
def get_stats (tr : RequestTracker) (now : ℚ) : TrackerStats × RequestTracker :=
  let reqs := pruneRequests tr.window_size now tr.requests
  let total := reqs.length
  let success := (reqs.filter (fun r => isSuccessStatus r.2.2)).length
  let rpm : ℚ :=
    match reqs with
    | [] => 0
    | r :: _ =>
        if 0 < now - r.1 then round2 ((total : ℚ) / (now - r.1) * 60) else 0
  ({ total_requests := total, success_count := success,
     error_count := total - success, requests_per_minute := rpm,
     window_size := tr.window_size },
   { tr with requests := reqs })

example : (acquire (mkRateLimiter 5 10 0) 1 10 0).2 = true := by
  with_unfolding_all decide

example : (acquire (mkRateLimiter 5 10 0) 1 10 0).1.tokens = 9 := by
  with_unfolding_all decide

/-- Scratch tracker for the spec's stats example: statuses 200, 201, 404, 500, 200. -/
def statsExampleTracker : RequestTracker :=
  { window_size := 3600,
    requests := [(0, "a", 200), (1, "b", 201), (2, "c", 404), (3, "d", 500), (4, "e", 200)] }

example : (get_stats statsExampleTracker 4).1.success_count = 3 := by
  with_unfolding_all decide

example : (get_stats statsExampleTracker 4).1.error_count = 2 := by
  with_unfolding_all decide

/-- The three exception classes `_make_request` raises (`EbayAPIError`,
`EbayAuthError`, `EbayRateLimitError` from `src/core/exceptions.py`), each
carrying its message. -/
inductive EbayError where
  | apiError (message : String)
  | authError (message : String)
  | rateLimitError (message : String)
deriving Repr, DecidableEq

instance {ε α : Type} [DecidableEq ε] [DecidableEq α] : DecidableEq (Except ε α) := fun a b =>
  match a, b with
  | .error e, .error f => decidable_of_iff (e = f) ⟨fun h => h ▸ rfl, fun h => by injection h⟩
  | .ok a, .ok b => decidable_of_iff (a = b) ⟨fun h => h ▸ rfl, fun h => by injection h⟩
  | .error _, .ok _ => isFalse fun h => Except.noConfusion h
  | .ok _, .error _ => isFalse fun h => Except.noConfusion h

/-- An HTTP response as `_make_request` observes it: the status code, the raw
`response.text`, the result of `response.json()` (`.error` models the parse
raising, caught by the outer `except Exception` handler), and the
server-supplied message that the `error_data.get("errors", [{}])[0]
.get("message", error_msg)` chain would extract (`none` when the body is not
parseable or carries no message, in which case the code falls back to
`response.text`). The parsed JSON body is abstracted as a `String`. -/
structure HttpResponse where
  status_code : ℤ
  text : String
  jsonBody : Except String String
  extractedError : Option String
deriving Repr, DecidableEq

/-- The authenticator collaborator (`EbayAuth`) as `_make_request` consumes
it: the value `get_access_token()` returns before the call, the behaviour of
`refresh_access_token()` (`.error msg` models it raising `EbayAuthError msg`,
`.ok b` its boolean result, which `_make_request` ignores), and the value
`get_access_token()` returns after a refresh. -/
structure AuthEnv where
  accessToken : Option String
  refreshResult : Except String Bool
  accessTokenAfterRefresh : Option String
deriving Repr, DecidableEq

/-- The `if not access_token:` truthiness test of `_get_headers`: both `None`
and the empty string count as missing. -/
def tokenValue (t : Option String) : Option String :=
  match t with
  | none => none
  | some s => if s = "" then none else some s

/-- The `return response.json() if response.text else {}` expression of the
2xx branches; `none` is the empty dict `{}`. A raising `response.json()` is
caught by the outer `except Exception` handler and re-raised as
`EbayAPIError("Unexpected error: …")`. -/
def parse2xxBody (resp : HttpResponse) : Except EbayError (Option String) :=
  if resp.text = "" then .ok none
  else
    match resp.jsonBody with
    | .ok b => .ok (some b)
    | .error e => .error (.apiError ("Unexpected error: " ++ e))

/-- Everything observable about one `_make_request` call: the returned value
or raised exception, the final limiter and tracker states, and ghost counters
for the number of HTTP attempts made and `refresh_access_token()` calls. -/
structure CallResult where
  result : Except EbayError (Option String)
  limiter : RateLimiter
  tracker : RequestTracker
  httpAttempts : ℕ
  refreshCalls : ℕ
deriving Repr, DecidableEq

/-- The request cycle `EbayInventoryAPI._make_request`, started at time `t`, with the network
and authenticator effects supplied by `env`, `first` and `second` (the
responses of the at-most-two HTTP attempts). Mirrors the source order:
`rate_limiter.acquire()` with its defaults (1 token, 10s timeout), then
`_get_headers()`, then the first request; `record_request` runs right after a
response object exists and before any status handling, stamped with the time
at which the limiter handed out the token; then the
204 / 2xx / 401-refresh-retry / 429 / other-status classification. -/
def makeRequest (rl : RateLimiter) (tr : RequestTracker) (env : AuthEnv)
    (first second : Except String HttpResponse) (endpoint : String) (t : ℚ) :
    CallResult :=
  match acquire rl 1 10 t with
  | (rl1, false) =>
      { result := .error (.rateLimitError
          "eBay API rate limit exceeded. Please try again later."),
        limiter := rl1, tracker := tr, httpAttempts := 0, refreshCalls := 0 }
  | (rl1, true) =>
    match tokenValue env.accessToken with
    | none =>
        { result := .error (.authError
            "Not authenticated with eBay. Please login first."),
          limiter := rl1, tracker := tr, httpAttempts := 0, refreshCalls := 0 }
    | some _ =>
      match first with
      | .error e =>
          { result := .error (.apiError ("Request failed: " ++ e)),
            limiter := rl1, tracker := tr, httpAttempts := 1, refreshCalls := 0 }
      | .ok resp =>
        let tr1 := record_request tr rl1.last_update endpoint resp.status_code
        if resp.status_code = 204 then
          { result := .ok none, limiter := rl1, tracker := tr1,
            httpAttempts := 1, refreshCalls := 0 }
        else if 200 ≤ resp.status_code ∧ resp.status_code < 300 then
          { result := parse2xxBody resp, limiter := rl1, tracker := tr1,
            httpAttempts := 1, refreshCalls := 0 }
        else if resp.status_code = 401 then
          match env.refreshResult with
          | .error e =>
              { result := .error (.authError e), limiter := rl1, tracker := tr1,
                httpAttempts := 1, refreshCalls := 1 }
          | .ok _ =>
            match tokenValue env.accessTokenAfterRefresh with
            | none =>
                { result := .error (.authError
                    "Not authenticated with eBay. Please login first."),
                  limiter := rl1, tracker := tr1,
                  httpAttempts := 1, refreshCalls := 1 }
            | some _ =>
              match second with
              | .error e =>
                  { result := .error (.apiError ("Request failed: " ++ e)),
                    limiter := rl1, tracker := tr1,
                    httpAttempts := 2, refreshCalls := 1 }
              | .ok resp2 =>
                if 200 ≤ resp2.status_code ∧ resp2.status_code < 300 then
                  { result := parse2xxBody resp2, limiter := rl1, tracker := tr1,
                    httpAttempts := 2, refreshCalls := 1 }
                else
                  { result := .error (.authError
                      "Authentication failed after token refresh"),
                    limiter := rl1, tracker := tr1,
                    httpAttempts := 2, refreshCalls := 1 }
        else if resp.status_code = 429 then
          { result := .error (.rateLimitError "eBay API rate limit exceeded"),
            limiter := rl1, tracker := tr1, httpAttempts := 1, refreshCalls := 0 }
        else
          { result := .error (.apiError ("eBay API error ("
              ++ toString resp.status_code ++ "): "
              ++ resp.extractedError.getD resp.text)),
            limiter := rl1, tracker := tr1, httpAttempts := 1, refreshCalls := 0 }

/-- A limiter with a full bucket, as `EbayInventoryAPI.__init__` creates it
(`calls_per_second=5, burst=10`), constructed at time 0. -/
def readyLimiter : RateLimiter := mkRateLimiter 5 10 0

/-- A fresh tracker with the default one-hour window. -/
def emptyTracker : RequestTracker := mkRequestTracker 3600

/-- An authenticator with a valid token that stays valid across a refresh. -/
def happyAuth : AuthEnv :=
  { accessToken := some "tok", refreshResult := .ok true,
    accessTokenAfterRefresh := some "tok2" }

/-- A plain 200 response with body. -/
def okResponse : HttpResponse :=
  { status_code := 200, text := "body", jsonBody := .ok "body", extractedError := none }

example :
    (makeRequest readyLimiter emptyTracker happyAuth (.ok okResponse)
      (.ok okResponse) "inventory_item" 0).result = .ok (some "body") := by
  with_unfolding_all decide

example :
    (makeRequest readyLimiter emptyTracker happyAuth (.error "connection refused")
      (.ok okResponse) "inventory_item" 0).tracker.requests = [] := by
  with_unfolding_all decide

example :
    (makeRequest readyLimiter emptyTracker happyAuth
      (.ok { okResponse with status_code := 401 })
      (.ok okResponse) "inventory_item" 0).result = .ok (some "body") := by
  with_unfolding_all decide

/-! ### Rate limiter lemmas -/

/-- Unrolling lemma for one poll iteration of the `acquire` loop. -/
theorem acquireGo_succ (fuel : ℕ) (rl : RateLimiter) (cost timeout start now : ℚ) :
    acquireGo (fuel + 1) rl cost timeout start now =
      if cost ≤ (addTokens rl now).tokens then
        ({ addTokens rl now with tokens := (addTokens rl now).tokens - cost }, true)
      else if timeout ≤ now - start then (addTokens rl now, false)
      else acquireGo fuel (addTokens rl now) cost timeout start (now + 1/10) := rfl

/-- A single-poll `acquire` loop run: the last poll before fuel runs out is
exactly a poll whose failure to acquire falls through to the timeout check. -/
theorem acquireGo_one (rl : RateLimiter) (cost timeout start now : ℚ) :
    acquireGo 1 rl cost timeout start now =
      if cost ≤ (addTokens rl now).tokens then
        ({ addTokens rl now with tokens := (addTokens rl now).tokens - cost }, true)
      else if timeout ≤ now - start then (addTokens rl now, false)
      else (addTokens rl now, false) := rfl

/-- Fuel irrelevance: once the fuel covers every poll up to the one at which
the timeout check must fire (`timeout ≤ (now - start) + fuel · 0.1`), adding
more fuel cannot change the result — the loop always exits through the
success or timeout branch, never by fuel exhaustion. -/
theorem acquireGo_fuel :
    ∀ (fuel : ℕ) (rl : RateLimiter) (cost timeout start now : ℚ) (m : ℕ),
    timeout ≤ now - start + (fuel : ℚ) * (1/10) →
    acquireGo (fuel + 1) rl cost timeout start now
      = acquireGo (fuel + 1 + m) rl cost timeout start now := by
  intro fuel
  induction fuel with
  | zero =>
      intro rl cost timeout start now m hfuel
      rw [Nat.add_right_comm 0 1 m, acquireGo_succ 0 rl cost timeout start now,
        acquireGo_succ (0 + m) rl cost timeout start now]
      by_cases h1 : cost ≤ (addTokens rl now).tokens
      · rw [if_pos h1, if_pos h1]
      · have h2 : timeout ≤ now - start := by push_cast at hfuel; linarith
        rw [if_neg h1, if_neg h1, if_pos h2, if_pos h2]
  | succ n ih =>
      intro rl cost timeout start now m hfuel
      rw [Nat.add_right_comm (n + 1) 1 m,
        acquireGo_succ (n + 1) rl cost timeout start now,
        acquireGo_succ (n + 1 + m) rl cost timeout start now]
      by_cases h1 : cost ≤ (addTokens rl now).tokens
      · rw [if_pos h1, if_pos h1]
      · by_cases h2 : timeout ≤ now - start
        · rw [if_neg h1, if_neg h1, if_pos h2, if_pos h2]
        · rw [if_neg h1, if_neg h1, if_neg h2, if_neg h2]
          exact ih _ cost timeout start (now + 1/10) m
            (by push_cast at hfuel ⊢; linarith)

/-- The wrapper's fuel `⌈timeout · 10⌉ + 1` satisfies the bound of
`acquireGo_fuel` at the starting poll, so `acquire` computes the true result
of the unbounded source loop. -/
theorem acquire_fuel_sufficient (rl : RateLimiter) (cost timeout start : ℚ) (m : ℕ) :
    acquire rl cost timeout start
      = acquireGo ((⌈timeout * 10⌉).toNat + 1 + m) rl cost timeout start start := by
  rw [acquire]
  apply acquireGo_fuel
  rw [sub_self, zero_add]
  by_cases h : 0 < timeout
  · have hc : (0:ℤ) ≤ ⌈timeout * 10⌉ := Int.ceil_nonneg (by positivity)
    have h2 : ((⌈timeout * 10⌉.toNat : ℕ) : ℚ) = ((⌈timeout * 10⌉ : ℤ) : ℚ) := by
      exact_mod_cast Int.toNat_of_nonneg hc
    have h1 := Int.le_ceil (timeout * 10)
    rw [h2]
    linarith
  · push_neg at h
    have hge : (0:ℚ) ≤ ((⌈timeout * 10⌉.toNat : ℕ) : ℚ) * (1/10) := by positivity
    linarith

theorem acquireGo_burst (fuel : ℕ) :
    ∀ (rl : RateLimiter) (cost timeout start now : ℚ),
    (acquireGo fuel rl cost timeout start now).1.burst = rl.burst := by
  induction fuel with
  | zero => intro rl cost timeout start now; rfl
  | succ n ih =>
      intro rl cost timeout start now
      rw [acquireGo_succ]
      split
      · rfl
      · split
        · rfl
        · rw [ih]; rfl

theorem addTokens_tokens_nonneg (rl : RateLimiter) (now : ℚ)
    (hr : 0 ≤ rl.calls_per_second) (h0 : 0 ≤ rl.tokens) (hb : rl.tokens ≤ rl.burst)
    (hlast : rl.last_update ≤ now) : 0 ≤ (addTokens rl now).tokens := by
  simp only [addTokens]
  exact le_min (le_trans h0 hb)
    (add_nonneg h0 (mul_nonneg (by linarith) hr))

theorem addTokens_tokens_le_burst (rl : RateLimiter) (now : ℚ) :
    (addTokens rl now).tokens ≤ rl.burst := by
  simp only [addTokens]
  exact min_le_left _ _

theorem addTokens_tokens_ge (rl : RateLimiter) (now : ℚ)
    (hr : 0 ≤ rl.calls_per_second) (hb : rl.tokens ≤ rl.burst)
    (hlast : rl.last_update ≤ now) : rl.tokens ≤ (addTokens rl now).tokens := by
  simp only [addTokens]
  exact le_min hb (by nlinarith [mul_nonneg (sub_nonneg.mpr hlast) hr])

theorem acquireGo_inv (fuel : ℕ) :
    ∀ (rl : RateLimiter) (cost timeout start now : ℚ),
    0 ≤ rl.calls_per_second → 0 ≤ cost → 0 ≤ rl.tokens → rl.tokens ≤ rl.burst →
    rl.last_update ≤ now →
    0 ≤ (acquireGo fuel rl cost timeout start now).1.tokens ∧
      (acquireGo fuel rl cost timeout start now).1.tokens ≤ rl.burst := by
  induction fuel with
  | zero => intro rl cost timeout start now _ _ h0 hb _; exact ⟨h0, hb⟩
  | succ n ih =>
      intro rl cost timeout start now hr hc h0 hb hlast
      have hrefill0 := addTokens_tokens_nonneg rl now hr h0 hb hlast
      have hrefillb := addTokens_tokens_le_burst rl now
      rw [acquireGo_succ]
      split
      · next hcost =>
          refine ⟨?_, ?_⟩
          · show 0 ≤ (addTokens rl now).tokens - cost
            linarith
          · show (addTokens rl now).tokens - cost ≤ rl.burst
            linarith
      · split
        · exact ⟨hrefill0, hrefillb⟩
        · exact ih (addTokens rl now) cost timeout start (now + 1/10) hr hc
            hrefill0 hrefillb (by show now ≤ now + 1/10; linarith)

theorem acquireGo_false_mono (fuel : ℕ) :
    ∀ (rl : RateLimiter) (cost timeout start now : ℚ),
    0 ≤ rl.calls_per_second → rl.tokens ≤ rl.burst → rl.last_update ≤ now →
    (acquireGo fuel rl cost timeout start now).2 = false →
    rl.tokens ≤ (acquireGo fuel rl cost timeout start now).1.tokens := by
  induction fuel with
  | zero => intro rl cost timeout start now _ _ _ _; exact le_refl _
  | succ n ih =>
      intro rl cost timeout start now hr hb hlast hfalse
      have hge := addTokens_tokens_ge rl now hr hb hlast
      rw [acquireGo_succ] at hfalse ⊢
      split at hfalse
      · simp at hfalse
      · split at hfalse
        · next h1 h2 =>
            rw [if_neg h1, if_pos h2]
            exact hge
        · next h1 h2 =>
            rw [if_neg h1, if_neg h2]
            exact le_trans hge (ih (addTokens rl now) cost timeout start (now + 1/10)
              hr (addTokens_tokens_le_burst rl now)
              (by show now ≤ now + 1/10; linarith) hfalse)

/-- C6: the token balance stays within `[0, capacity]` at construction, across
every refill, and across every `acquire` call (whatever its outcome), and on a
timed-out `acquire` the balance never decreases (tokens are deducted only by a
successful acquisition). Hypotheses: nonnegative refill rate and cost, and a
monotone clock. -/
theorem limiter_token_bound_invariant :
    (∀ cps burst t0 : ℚ, 0 ≤ burst →
       0 ≤ (mkRateLimiter cps burst t0).tokens ∧
         (mkRateLimiter cps burst t0).tokens ≤ (mkRateLimiter cps burst t0).burst) ∧
    (∀ (rl : RateLimiter) (now : ℚ), 0 ≤ rl.calls_per_second →
       rl.last_update ≤ now → 0 ≤ rl.tokens → rl.tokens ≤ rl.burst →
       0 ≤ (addTokens rl now).tokens ∧ (addTokens rl now).tokens ≤ rl.burst) ∧
    (∀ (rl : RateLimiter) (cost timeout start : ℚ), 0 ≤ rl.calls_per_second →
       0 ≤ cost → rl.last_update ≤ start → 0 ≤ rl.tokens → rl.tokens ≤ rl.burst →
       0 ≤ (acquire rl cost timeout start).1.tokens ∧
         (acquire rl cost timeout start).1.tokens ≤ rl.burst) ∧
    (∀ (rl : RateLimiter) (cost timeout start : ℚ), 0 ≤ rl.calls_per_second →
       rl.last_update ≤ start → rl.tokens ≤ rl.burst →
       (acquire rl cost timeout start).2 = false →
       rl.tokens ≤ (acquire rl cost timeout start).1.tokens) := by
  refine ⟨?_, ?_, ?_, ?_⟩
  · intro cps burst t0 hb
    exact ⟨hb, le_refl _⟩
  · intro rl now hr hlast h0 hb
    exact ⟨addTokens_tokens_nonneg rl now hr h0 hb hlast,
      addTokens_tokens_le_burst rl now⟩
  · intro rl cost timeout start hr hc hlast h0 hb
    exact acquireGo_inv _ rl cost timeout start start hr hc h0 hb hlast
  · intro rl cost timeout start hr hlast hb hfalse
    exact acquireGo_false_mono _ rl cost timeout start start hr hb hlast hfalse

/-- A degenerate limiter state (empty bucket, zero refill rate) under which
`acquire` must run into its timeout. -/
def zeroLimiter : RateLimiter :=
  { calls_per_second := 0, burst := 0, tokens := 0, last_update := 0 }

theorem zeroLimiter_acquire_false : (acquire zeroLimiter 1 10 0).2 = false := by
  with_unfolding_all decide

/-- Witness for `limiter_token_bound_invariant` at concrete states. -/
theorem limiter_token_bound_invariant_witness :
    (0 ≤ (mkRateLimiter 5 10 0).tokens ∧
      (mkRateLimiter 5 10 0).tokens ≤ (mkRateLimiter 5 10 0).burst) ∧
    (0 ≤ (addTokens readyLimiter 1).tokens ∧
      (addTokens readyLimiter 1).tokens ≤ readyLimiter.burst) ∧
    (0 ≤ (acquire readyLimiter 1 10 0).1.tokens ∧
      (acquire readyLimiter 1 10 0).1.tokens ≤ readyLimiter.burst) ∧
    (zeroLimiter.tokens ≤ (acquire zeroLimiter 1 10 0).1.tokens) :=
  ⟨limiter_token_bound_invariant.1 5 10 0 (by norm_num),
   limiter_token_bound_invariant.2.1 readyLimiter 1
     (by with_unfolding_all decide) (by with_unfolding_all decide)
     (by with_unfolding_all decide) (by with_unfolding_all decide),
   limiter_token_bound_invariant.2.2.1 readyLimiter 1 10 0
     (by with_unfolding_all decide) (by norm_num)
     (by with_unfolding_all decide) (by with_unfolding_all decide)
     (by with_unfolding_all decide),
   limiter_token_bound_invariant.2.2.2 zeroLimiter 1 10 0
     (by with_unfolding_all decide) (by with_unfolding_all decide)
     (by with_unfolding_all decide) zeroLimiter_acquire_false⟩

/-! ### C4: token bucket burst and refill timing -/

/-- Running `n` consecutive `acquire(1)` calls (with the default 10s timeout), all
issued at the same instant `t`; the flag is `True` iff every call succeeded. -/
def acquireN (rl : RateLimiter) : ℕ → ℚ → RateLimiter × Bool
  | 0, _ => (rl, true)
  | n + 1, t =>
      match acquire rl 1 10 t with
      | (rl1, ok1) =>
        match acquireN rl1 n t with
        | (rl2, ok2) => (rl2, ok1 && ok2)

/-- C4 counterexample: after ten immediate `acquire(1)` successes drain a
`capacity=10, refill_rate=5/s` limiter, an eleventh `acquire(1)` with timeout
`0.15 s` — strictly below `0.2 s` — returns `True`, not `False`: the poll at
`t = 0.2 s` sees the one refilled token before the timeout check (which only
runs at the poll instants `0, 0.1, 0.2, …`) can fire. -/
theorem eleventh_acquire_timeout_below_point2_succeeds :
    (0:ℚ) < 3/20 ∧ (3/20:ℚ) < 1/5 ∧
    (acquireN (mkRateLimiter 5 10 0) 10 0).2 = true ∧
    (acquire (acquireN (mkRateLimiter 5 10 0) 10 0).1 1 (3/20) 0).2 = true := by
  refine ⟨by norm_num, by norm_num, ?_, ?_⟩ <;> with_unfolding_all decide

/-- A drained limiter (`tokens = 0`, rate 5/s, capacity 10, clock at 0): an
`acquire(1)` started at time 0 with any timeout of at most one polling
interval returns `False` — the poll at `t = 0.1 s` finds only half a token
and the timeout check then fires (and a nonpositive timeout fails already at
the first poll). -/
theorem drained_limiter_acquire_times_out (timeout : ℚ) (h1 : timeout ≤ 1/10) :
    (acquire { calls_per_second := 5, burst := 10, tokens := 0, last_update := 0 }
      1 timeout 0).2 = false := by
  have hA : ¬((1:ℚ) ≤ (addTokens
      { calls_per_second := 5, burst := 10, tokens := 0, last_update := 0 } 0).tokens) := by
    with_unfolding_all decide
  rcases le_or_lt timeout 0 with h0 | h0
  · have hc0 : ⌈timeout * 10⌉ ≤ 0 := Int.ceil_le.mpr (by push_cast; linarith)
    have hfuel : (⌈timeout * 10⌉).toNat + 1 = 0 + 1 := by
      rw [Int.toNat_eq_zero.mpr hc0]
    have hB0 : timeout ≤ (0:ℚ) - 0 := by
      rw [sub_self]
      exact h0
    rw [acquire, hfuel, acquireGo_succ, if_neg hA, if_pos hB0]
  · have hceil : (⌈timeout * 10⌉).toNat + 1 = 1 + 1 := by
      have h : ⌈timeout * 10⌉ = 1 := by
        rw [Int.ceil_eq_iff]
        constructor
        · push_cast
          linarith
        · push_cast
          linarith
      rw [h]
      rfl
    have hB : ¬(timeout ≤ (0:ℚ) - 0) := by
      rw [sub_self]
      exact not_le.mpr h0
    have hC : ¬((1:ℚ) ≤ (addTokens (addTokens
        { calls_per_second := 5, burst := 10, tokens := 0, last_update := 0 } 0)
        (0 + 1/10)).tokens) := by
      with_unfolding_all decide
    have hD : timeout ≤ (0:ℚ) + 1/10 - 0 := by linarith
    simp only [acquire]
    rw [hceil, acquireGo_succ, if_neg hA, if_neg hB, acquireGo_one, if_neg hC, if_pos hD]

/-- The same drained limiter: an `acquire(1)` with any timeout strictly above
one polling interval returns `True` — the polls at `t = 0` and `t = 0.1 s`
fail (half a token) but do not reach the timeout, and the poll at `t = 0.2 s`
sees the one refilled token before any timeout check can fire. -/
theorem drained_limiter_acquire_succeeds (timeout : ℚ) (h : 1/10 < timeout) :
    (acquire { calls_per_second := 5, burst := 10, tokens := 0, last_update := 0 }
      1 timeout 0).2 = true := by
  have hN : 2 ≤ (⌈timeout * 10⌉).toNat := by
    have h2 : (1:ℤ) < ⌈timeout * 10⌉ := Int.lt_ceil.mpr (by push_cast; linarith)
    omega
  obtain ⟨k, hk⟩ : ∃ k, (⌈timeout * 10⌉).toNat = k + 2 :=
    ⟨(⌈timeout * 10⌉).toNat - 2, by omega⟩
  have hk2 : k + 2 = k + 1 + 1 := rfl
  have hA : ¬((1:ℚ) ≤ (addTokens
      { calls_per_second := 5, burst := 10, tokens := 0, last_update := 0 } 0).tokens) := by
    with_unfolding_all decide
  have hB : ¬(timeout ≤ (0:ℚ) - 0) := by
    rw [sub_self]
    intro hc
    linarith
  have hC : ¬((1:ℚ) ≤ (addTokens (addTokens
      { calls_per_second := 5, burst := 10, tokens := 0, last_update := 0 } 0)
      (0 + 1/10)).tokens) := by
    with_unfolding_all decide
  have hD : ¬(timeout ≤ (0:ℚ) + 1/10 - 0) := by
    intro hc
    linarith
  have hE : (1:ℚ) ≤ (addTokens (addTokens (addTokens
      { calls_per_second := 5, burst := 10, tokens := 0, last_update := 0 } 0)
      (0 + 1/10)) (0 + 1/10 + 1/10)).tokens := by
    with_unfolding_all decide
  rw [acquire, hk, acquireGo_succ, if_neg hA, if_neg hB, hk2,
    acquireGo_succ, if_neg hC, if_neg hD, acquireGo_succ, if_pos hE]

/-- C4 amended: ten consecutive immediate `acquire(1)` calls on a fresh
`capacity=10, refill_rate=5/s` limiter all return `True`, and an eleventh
immediate `acquire(1)` times out and returns `False` **exactly when** its
timeout is at most one polling interval (`timeout ≤ 0.1 s`); for every
timeout above `0.1 s` — in particular everywhere in `(0.1 s, 0.2 s)` — the
call returns `True` at the `t = 0.2 s` poll. -/
theorem eleventh_acquire_times_out_iff_timeout_le_poll :
    (acquireN (mkRateLimiter 5 10 0) 10 0).2 = true ∧
    (∀ timeout : ℚ,
      (acquire (acquireN (mkRateLimiter 5 10 0) 10 0).1 1 timeout 0).2 = false ↔
        timeout ≤ 1/10) := by
  have hS : (acquireN (mkRateLimiter 5 10 0) 10 0).1 =
      { calls_per_second := 5, burst := 10, tokens := 0, last_update := 0 } := by
    with_unfolding_all decide
  constructor
  · with_unfolding_all decide
  · intro timeout
    rw [hS]
    constructor
    · intro hfalse
      by_contra hgt
      push_neg at hgt
      rw [drained_limiter_acquire_succeeds timeout hgt] at hfalse
      exact absurd hfalse (by decide)
    · exact drained_limiter_acquire_times_out timeout

/-- Witness for `eleventh_acquire_times_out_iff_timeout_le_poll` at the
boundary timeout of exactly one polling interval. -/
theorem eleventh_acquire_times_out_witness :
    (acquireN (mkRateLimiter 5 10 0) 10 0).2 = true ∧
    (acquire (acquireN (mkRateLimiter 5 10 0) 10 0).1 1 (1/10) 0).2 = false :=
  ⟨eleventh_acquire_times_out_iff_timeout_le_poll.1,
   (eleventh_acquire_times_out_iff_timeout_le_poll.2 (1/10)).mpr (by norm_num)⟩

/-! ### Tracker lemmas -/

/-- Replay a sequence of `record_request` calls, each given as
`(time, endpoint, status_code)`. -/
def runRecords (tr : RequestTracker) : List (ℚ × String × ℤ) → RequestTracker
  | [] => tr
  | op :: rest => runRecords (record_request tr op.1 op.2.1 op.2.2) rest

/-- The deque's timestamps are non-decreasing from head to tail — the shape
`record_request` maintains when the clock is monotone, and the shape that makes
head-only eviction complete. -/
def TimesSorted (l : List (ℚ × String × ℤ)) : Prop :=
  List.Pairwise (fun a b => a.1 ≤ b.1) l

theorem pruneRequests_subset (w now : ℚ) (l : List (ℚ × String × ℤ)) :
    ∀ r ∈ pruneRequests w now l, r ∈ l := fun _ hr =>
  (List.dropWhile_sublist _).subset hr

theorem pruneRequests_sorted (w now : ℚ) (l : List (ℚ × String × ℤ))
    (hs : TimesSorted l) : TimesSorted (pruneRequests w now l) :=
  hs.sublist (List.dropWhile_sublist _)

/-- Head-only eviction is complete on a sorted deque: everything that survives
the prune is inside the window. -/
theorem mem_pruneRequests_lower (w now : ℚ) :
    ∀ l : List (ℚ × String × ℤ), TimesSorted l →
    ∀ r ∈ pruneRequests w now l, now - w ≤ r.1 := by
  intro l
  induction l with
  | nil => intro _ r hr; simp [pruneRequests] at hr
  | cons x xs ih =>
      intro hs r hr
      rw [TimesSorted, List.pairwise_cons] at hs
      by_cases hx : x.1 < now - w
      · rw [pruneRequests, List.dropWhile_cons, if_pos (by simpa using hx)] at hr
        exact ih hs.2 r hr
      · rw [pruneRequests, List.dropWhile_cons, if_neg (by simpa using hx)] at hr
        rcases List.mem_cons.mp hr with h | h
        · subst h; linarith [not_lt.mp hx]
        · exact le_trans (not_lt.mp hx) (hs.1 r h)

/-- Invariant carried through a run of tracker operations: timestamps sorted
and all at most the current time `t`. -/
def TrackerInv (tr : RequestTracker) (t : ℚ) : Prop :=
  TimesSorted tr.requests ∧ ∀ r ∈ tr.requests, r.1 ≤ t

theorem record_request_inv (tr : RequestTracker) (now : ℚ) (endpoint : String)
    (status_code : ℤ) (t0 : ℚ) (hinv : TrackerInv tr t0) (hle : t0 ≤ now) :
    TrackerInv (record_request tr now endpoint status_code) now := by
  obtain ⟨hs, hb⟩ := hinv
  constructor
  · rw [record_request, TimesSorted, List.pairwise_append]
    refine ⟨pruneRequests_sorted _ _ _ hs, List.pairwise_singleton _ _, ?_⟩
    intro a ha b hbmem
    rw [List.mem_singleton] at hbmem
    subst hbmem
    exact le_trans (hb a (pruneRequests_subset _ _ _ a ha)) hle
  · intro r hr
    rw [record_request] at hr
    rcases List.mem_append.mp hr with h | h
    · exact le_trans (hb r (pruneRequests_subset _ _ _ r h)) hle
    · rw [List.mem_singleton] at h; subst h; exact le_refl _

theorem runRecords_window (ops : List (ℚ × String × ℤ)) :
    ∀ tr : RequestTracker, (runRecords tr ops).window_size = tr.window_size := by
  induction ops with
  | nil => intro tr; rfl
  | cons op rest ih => intro tr; rw [runRecords, ih]; rfl

theorem runRecords_inv (ops : List (ℚ × String × ℤ)) :
    ∀ (tr : RequestTracker) (t0 now : ℚ), TrackerInv tr t0 →
    List.Chain (· ≤ ·) t0 (ops.map (fun op => op.1) ++ [now]) →
    TrackerInv (runRecords tr ops) now := by
  induction ops with
  | nil =>
      intro tr t0 now hinv hch
      have h0 : t0 ≤ now := List.chain_singleton.mp hch
      exact ⟨hinv.1, fun r hr => le_trans (hinv.2 r hr) h0⟩
  | cons op rest ih =>
      intro tr t0 now hinv hch
      rw [List.map_cons, List.cons_append, List.chain_cons] at hch
      exact ih _ op.1 now (record_request_inv tr op.1 op.2.1 op.2.2 t0 hinv hch.1) hch.2

/-- C7: after a sequence of `record_request` calls at non-decreasing times
followed by one more `record_request` or a `get_stats` at time `now`, every
retained record's timestamp lies within `window_size` of `now` (and not in the
future). -/
theorem tracker_window_invariant (w now : ℚ) (ops : List (ℚ × String × ℤ))
    (endpoint : String) (status_code : ℤ) (hw : 0 ≤ w)
    (hch : List.Chain' (· ≤ ·) (ops.map (fun op => op.1) ++ [now])) :
    (∀ r ∈ (record_request (runRecords (mkRequestTracker w) ops) now
        endpoint status_code).requests, now - w ≤ r.1 ∧ r.1 ≤ now) ∧
    (∀ r ∈ ((get_stats (runRecords (mkRequestTracker w) ops) now).2).requests,
        now - w ≤ r.1 ∧ r.1 ≤ now) := by
  have hinv : TrackerInv (runRecords (mkRequestTracker w) ops) now := by
    cases ops with
    | nil =>
        exact ⟨List.Pairwise.nil, fun r hr => absurd hr (List.not_mem_nil r)⟩
    | cons op rest =>
        have hch2 : List.Chain (· ≤ ·) op.1
            (rest.map (fun o => o.1) ++ [now]) := hch
        exact runRecords_inv rest _ op.1 now
          (record_request_inv (mkRequestTracker w) op.1 op.2.1 op.2.2 op.1
            ⟨List.Pairwise.nil, fun r hr => absurd hr (List.not_mem_nil r)⟩
            (le_refl _)) hch2
  have hwin : (runRecords (mkRequestTracker w) ops).window_size = w :=
    runRecords_window ops (mkRequestTracker w)
  constructor
  · intro r hr
    rw [record_request] at hr
    rcases List.mem_append.mp hr with h | h
    · rw [hwin] at h
      exact ⟨mem_pruneRequests_lower w now _ hinv.1 r h,
        hinv.2 r (pruneRequests_subset w now _ r h)⟩
    · rw [List.mem_singleton] at h
      subst h
      exact ⟨by linarith, le_refl _⟩
  · intro r hr
    have hstats : (get_stats (runRecords (mkRequestTracker w) ops) now).2.requests
        = pruneRequests w now (runRecords (mkRequestTracker w) ops).requests := by
      simp only [get_stats]
      rw [hwin]
    rw [hstats] at hr
    exact ⟨mem_pruneRequests_lower w now _ hinv.1 r hr,
      hinv.2 r (pruneRequests_subset w now _ r hr)⟩

/-- Witness for the tracker window invariant: three records at times 0, 2000
and 5000 with a one-hour window, pruned at time 5000. -/
theorem tracker_window_invariant_witness :
    (∀ r ∈ (record_request (runRecords (mkRequestTracker 3600)
        [(0, "a", 200), (2000, "b", 200)]) 5000 "c" 500).requests,
      (5000:ℚ) - 3600 ≤ r.1 ∧ r.1 ≤ 5000) ∧
    (∀ r ∈ ((get_stats (runRecords (mkRequestTracker 3600)
        [(0, "a", 200), (2000, "b", 200)]) 5000).2).requests,
      (5000:ℚ) - 3600 ≤ r.1 ∧ r.1 ≤ 5000) :=
  tracker_window_invariant 3600 5000 [(0, "a", 200), (2000, "b", 200)] "c" 500
    (by norm_num)
    (by
      rw [List.map_cons, List.map_cons, List.map_nil]
      show List.Chain' (· ≤ ·) [(0:ℚ), 2000, 5000]
      norm_num [List.chain'_cons, List.chain'_singleton])

/-! ### C5: the requests-per-minute statistic -/

theorem roundHalfEven_ge_one (x : ℚ) (h : 1 ≤ x) : 1 ≤ roundHalfEven x := by
  rw [roundHalfEven]
  by_cases hf : Int.fract x = 1/2
  · rw [if_pos hf]
    have hfl : (1:ℤ) ≤ ⌊x⌋ := by
      have hx : (⌊x⌋:ℚ) = x - 1/2 := by
        have hd : Int.fract x = x - ⌊x⌋ := (Int.self_sub_floor x).symm
        rw [hd] at hf
        linarith
      have hpos : (0:ℚ) < (⌊x⌋:ℚ) := by rw [hx]; linarith
      have h0 : 0 < ⌊x⌋ := by exact_mod_cast hpos
      omega
    split
    · exact hfl
    · omega
  · rw [if_neg hf, round_eq]
    exact Int.le_floor.mpr (by push_cast; linarith)

theorem round2_ge (x : ℚ) (h : 1 ≤ x * 100) : 1/100 ≤ round2 x := by
  rw [round2]
  have h1 := roundHalfEven_ge_one (x * 100) h
  have hc : (1:ℚ) ≤ (roundHalfEven (x * 100) : ℚ) := by exact_mod_cast h1
  linarith

/-- C5 amended: with a monotone clock and the default-scale window
(`0 < window_size ≤ 6000` — the source default is 3600), `get_stats` reports
`requests_per_minute = 0` exactly when the pruned deque is empty **or** its
oldest record carries the current timestamp (`time_span = 0`, which the code
maps to `0` rather than guarding with an epsilon); when the deque is nonempty
and the span is positive, it reports `round(total / time_span * 60, 2)`. -/
theorem stats_rpm_zero_iff (tr : RequestTracker) (now : ℚ)
    (hs : TimesSorted tr.requests) (hb : ∀ r ∈ tr.requests, r.1 ≤ now)
    (hw6 : tr.window_size ≤ 6000) :
    ((get_stats tr now).1.requests_per_minute = 0 ↔
      pruneRequests tr.window_size now tr.requests = [] ∨
      ∃ x l', pruneRequests tr.window_size now tr.requests = x :: l' ∧ x.1 = now) ∧
    (∀ x l', pruneRequests tr.window_size now tr.requests = x :: l' → x.1 < now →
      (get_stats tr now).1.requests_per_minute =
        round2 ((((x :: l').length : ℕ) : ℚ) / (now - x.1) * 60)) := by
  have hrpm : (get_stats tr now).1.requests_per_minute =
      (match pruneRequests tr.window_size now tr.requests with
       | [] => (0:ℚ)
       | r :: _ =>
           if 0 < now - r.1 then
             round2 (((pruneRequests tr.window_size now tr.requests).length : ℚ)
               / (now - r.1) * 60)
           else 0) := rfl
  cases hp : pruneRequests tr.window_size now tr.requests with
  | nil =>
      have hrpm0 : (get_stats tr now).1.requests_per_minute = 0 := by
        rw [hrpm, hp]
      constructor
      · rw [hrpm0]
        exact ⟨fun _ => Or.inl rfl, fun _ => rfl⟩
      · intro y m' hp' _
        exact absurd hp' (by simp)
  | cons x l' =>
      have hxmem : x ∈ tr.requests :=
        pruneRequests_subset _ _ _ x (hp ▸ List.mem_cons_self x l')
      have hxle : x.1 ≤ now := hb x hxmem
      have hxlow : now - tr.window_size ≤ x.1 :=
        mem_pruneRequests_lower _ _ _ hs x (hp ▸ List.mem_cons_self x l')
      rw [hp] at hrpm
      have hrpm' : (get_stats tr now).1.requests_per_minute =
          if 0 < now - x.1 then
            round2 ((((x :: l').length : ℕ) : ℚ) / (now - x.1) * 60)
          else 0 := hrpm
      by_cases hspan : 0 < now - x.1
      · rw [if_pos hspan] at hrpm'
        have hL1 : (1:ℚ) ≤ (((x :: l').length : ℕ) : ℚ) := by
          have h1 : 1 ≤ (x :: l').length := by simp
          exact_mod_cast h1
        have harith : (((x :: l').length : ℕ) : ℚ) / (now - x.1) * 60 * 100 =
            ((((x :: l').length : ℕ) : ℚ) * 6000) / (now - x.1) := by ring
        have hone : (1:ℚ) ≤ (((x :: l').length : ℕ) : ℚ) / (now - x.1) * 60 * 100 := by
          rw [harith, le_div_iff₀ hspan]
          nlinarith
        have hrpos : 0 < (get_stats tr now).1.requests_per_minute := by
          rw [hrpm']
          exact lt_of_lt_of_le (by norm_num) (round2_ge _ hone)
        constructor
        · constructor
          · intro h0
            exact absurd h0 (ne_of_gt hrpos)
          · intro h
            rcases h with hemp | ⟨y, m', hym, hynow⟩
            · exact absurd hemp (by simp)
            · injection hym with h1 h2
              rw [← h1] at hynow
              linarith
        · intro y m' hp' hlt
          injection hp' with h1 h2
          subst h1
          subst h2
          exact hrpm'
      · rw [if_neg hspan] at hrpm'
        have hxeq : x.1 = now := by
          have hle := not_lt.mp hspan
          linarith
        constructor
        · rw [hrpm']
          exact ⟨fun _ => Or.inr ⟨x, l', rfl, hxeq⟩, fun _ => rfl⟩
        · intro y m' hp' hlt
          injection hp' with h1 h2
          rw [← h1] at hlt
          linarith

/-- A tracker holding one record, taken at time 0. -/
def singleRecordTracker : RequestTracker :=
  { window_size := 3600, requests := [(0, "inventory_item", 200)] }

/-- C5 counterexample: a `stats` call at the very instant of the only record
(`time_span = 0`) reports `requests_per_minute = 0` while `total_requests = 1`
— so `requests_per_minute = 0` does not imply the tracker is empty, and the
zero-span case is mapped to `0`, not guarded by an epsilon. -/
theorem stats_rpm_zero_with_nonempty_tracker :
    (get_stats singleRecordTracker 0).1.total_requests = 1 ∧
    (get_stats singleRecordTracker 0).1.requests_per_minute = 0 := by
  constructor <;> with_unfolding_all decide

/-- Witness for `stats_rpm_zero_iff`: the same single-record tracker read 60
seconds later reports one request per minute. -/
theorem stats_rpm_zero_iff_witness :
    (get_stats singleRecordTracker 60).1.requests_per_minute = 1 := by
  have h := stats_rpm_zero_iff singleRecordTracker 60
    (by rw [TimesSorted]; simp [singleRecordTracker])
    (by
      intro r hr
      simp only [singleRecordTracker, List.mem_singleton] at hr
      subst hr
      norm_num)
    (by norm_num [singleRecordTracker])
  have hp : pruneRequests singleRecordTracker.window_size 60 singleRecordTracker.requests
      = [((0:ℚ), "inventory_item", (200:ℤ))] := by
    with_unfolding_all decide
  have h2 := h.2 ((0:ℚ), "inventory_item", (200:ℤ)) [] hp (by norm_num)
  rw [h2]
  have : ((((((0:ℚ), "inventory_item", (200:ℤ)) :: []).length : ℕ) : ℚ) / (60 - 0) * 60)
      = 1 := by norm_num
  rw [this]
  with_unfolding_all decide

/-! ### Client lemmas -/

/-- Calling `acquire` on a limiter whose bucket already holds enough tokens and whose
clock has not advanced: the first poll succeeds, deducting exactly `cost`. -/
theorem acquire_ready (rl : RateLimiter) (cost timeout : ℚ) (h : cost ≤ rl.tokens)
    (hb : rl.tokens ≤ rl.burst) :
    acquire rl cost timeout rl.last_update =
      ({ rl with tokens := rl.tokens - cost }, true) := by
  have haddT : addTokens rl rl.last_update = rl := by
    rw [addTokens]
    have hm : min rl.burst
        (rl.tokens + (rl.last_update - rl.last_update) * rl.calls_per_second)
        = rl.tokens := by
      rw [sub_self, zero_mul, add_zero, min_eq_right hb]
    rw [hm]
  rw [acquire, acquireGo_succ, haddT, if_pos h]

/-- An authenticator with no token available at all. -/
def noAuth : AuthEnv :=
  { accessToken := none, refreshResult := .ok true, accessTokenAfterRefresh := none }

/-- A 401 response. -/
def resp401 : HttpResponse :=
  { status_code := 401, text := "unauthorized", jsonBody := .error "nojson",
    extractedError := none }

/-- A 429 response. -/
def resp429 : HttpResponse :=
  { status_code := 429, text := "too many requests", jsonBody := .error "nojson",
    extractedError := none }

/-- A 500 response whose body is not parseable JSON. -/
def resp500 : HttpResponse :=
  { status_code := 500, text := "boom", jsonBody := .error "nojson",
    extractedError := none }

/-! ### C8: limiter timeout propagation -/

/-- C8: when `acquire` times out, `_make_request` raises `EbayRateLimitError`,
sends no HTTP request, and leaves the tracker untouched. -/
theorem rate_limit_timeout_records_nothing
    (rl : RateLimiter) (tr : RequestTracker) (env : AuthEnv)
    (first second : Except String HttpResponse) (endpoint : String) (t : ℚ)
    (hacq : (acquire rl 1 10 t).2 = false) :
    (makeRequest rl tr env first second endpoint t).result =
      .error (.rateLimitError "eBay API rate limit exceeded. Please try again later.") ∧
    (makeRequest rl tr env first second endpoint t).tracker = tr ∧
    (makeRequest rl tr env first second endpoint t).httpAttempts = 0 := by
  rcases hq : acquire rl 1 10 t with ⟨rl1, b⟩
  rw [hq] at hacq
  simp only at hacq
  subst hacq
  delta makeRequest
  rw [hq]
  exact ⟨rfl, rfl, rfl⟩

/-- Witness for `rate_limit_timeout_records_nothing` on a limiter that must
time out. -/
theorem rate_limit_timeout_records_nothing_witness :
    (makeRequest zeroLimiter emptyTracker happyAuth (.ok okResponse)
      (.ok okResponse) "inventory_item" 0).result =
      .error (.rateLimitError "eBay API rate limit exceeded. Please try again later.") ∧
    (makeRequest zeroLimiter emptyTracker happyAuth (.ok okResponse)
      (.ok okResponse) "inventory_item" 0).tracker = emptyTracker ∧
    (makeRequest zeroLimiter emptyTracker happyAuth (.ok okResponse)
      (.ok okResponse) "inventory_item" 0).httpAttempts = 0 :=
  rate_limit_timeout_records_nothing zeroLimiter emptyTracker happyAuth
    (.ok okResponse) (.ok okResponse) "inventory_item" 0 zeroLimiter_acquire_false

/-! ### C10: token consumed before the credential fetch -/

/-- C10: the limiter cost is deducted before the bearer credential is fetched,
so a call that fails with `EbayAuthError` because no credential is available
has already consumed one token, and the token is not refunded: the final
limiter balance is the pre-call balance minus one. -/
theorem token_consumed_before_credential_fetch
    (rl : RateLimiter) (tr : RequestTracker) (env : AuthEnv)
    (first second : Except String HttpResponse) (endpoint : String)
    (htok : 1 ≤ rl.tokens) (hb : rl.tokens ≤ rl.burst)
    (hmiss : tokenValue env.accessToken = none) :
    (makeRequest rl tr env first second endpoint rl.last_update).result =
      .error (.authError "Not authenticated with eBay. Please login first.") ∧
    (makeRequest rl tr env first second endpoint rl.last_update).limiter.tokens =
      rl.tokens - 1 ∧
    (makeRequest rl tr env first second endpoint rl.last_update).httpAttempts = 0 := by
  have hacq := acquire_ready rl 1 10 htok hb
  delta makeRequest
  rw [hacq, hmiss]
  exact ⟨rfl, rfl, rfl⟩

/-- Witness for `token_consumed_before_credential_fetch`: a full bucket of 10
drops to 9 even though the call never reaches the network. -/
theorem token_consumed_before_credential_fetch_witness :
    (makeRequest readyLimiter emptyTracker noAuth (.ok okResponse)
      (.ok okResponse) "inventory_item" 0).result =
      .error (.authError "Not authenticated with eBay. Please login first.") ∧
    (makeRequest readyLimiter emptyTracker noAuth (.ok okResponse)
      (.ok okResponse) "inventory_item" 0).limiter.tokens = readyLimiter.tokens - 1 ∧
    (makeRequest readyLimiter emptyTracker noAuth (.ok okResponse)
      (.ok okResponse) "inventory_item" 0).httpAttempts = 0 :=
  token_consumed_before_credential_fetch readyLimiter emptyTracker noAuth
    (.ok okResponse) (.ok okResponse) "inventory_item"
    (by with_unfolding_all decide) (by with_unfolding_all decide) rfl

/-! ### C1: what the usage tracker records -/

/-- C1 counterexample: a first-request transport failure is a terminal
error outcome, yet the tracker stays empty — `record_request` sits after the
`requests.request` call, so a raised `RequestException` skips it. -/
theorem transport_outcome_not_recorded :
    (makeRequest readyLimiter emptyTracker happyAuth (.error "connection refused")
      (.ok okResponse) "inventory_item" 0).result =
      .error (.apiError "Request failed: connection refused") ∧
    (makeRequest readyLimiter emptyTracker happyAuth (.error "connection refused")
      (.ok okResponse) "inventory_item" 0).tracker.requests = [] := by
  constructor <;> with_unfolding_all decide

/-- C1 amended: exactly one record is appended iff the first HTTP request of
the call received a response (limiter passed, credential present, no transport
failure), and that record carries the first response's status code — so the
401-retry path records the 401, not the retry outcome. The limiter-timeout,
missing-credential and transport-failure paths leave the tracker unchanged. -/
theorem usage_recording_amended :
    (∀ (rl : RateLimiter) (tr : RequestTracker) (env : AuthEnv)
       (first second : Except String HttpResponse) (endpoint : String) (t : ℚ),
       (acquire rl 1 10 t).2 = false →
       (makeRequest rl tr env first second endpoint t).tracker = tr) ∧
    (∀ (rl : RateLimiter) (tr : RequestTracker) (env : AuthEnv)
       (first second : Except String HttpResponse) (endpoint : String) (t : ℚ),
       tokenValue env.accessToken = none →
       (makeRequest rl tr env first second endpoint t).tracker = tr) ∧
    (∀ (rl : RateLimiter) (tr : RequestTracker) (env : AuthEnv) (e : String)
       (second : Except String HttpResponse) (endpoint : String) (t : ℚ),
       (makeRequest rl tr env (.error e) second endpoint t).tracker = tr) ∧
    (∀ (rl : RateLimiter) (tr : RequestTracker) (env : AuthEnv)
       (resp : HttpResponse) (second : Except String HttpResponse)
       (endpoint : String) (t : ℚ) (rl1 : RateLimiter) (tok : String),
       acquire rl 1 10 t = (rl1, true) →
       tokenValue env.accessToken = some tok →
       (makeRequest rl tr env (.ok resp) second endpoint t).tracker =
         record_request tr rl1.last_update endpoint resp.status_code) := by
  refine ⟨?_, ?_, ?_, ?_⟩
  · intro rl tr env first second endpoint t hacq
    rcases hq : acquire rl 1 10 t with ⟨rl1, b⟩
    rw [hq] at hacq
    simp only at hacq
    subst hacq
    delta makeRequest
    rw [hq]
  · intro rl tr env first second endpoint t hnone
    rcases hq : acquire rl 1 10 t with ⟨rl1, b⟩
    cases b
    · delta makeRequest
      rw [hq]
    · delta makeRequest
      rw [hq, hnone]
  · intro rl tr env e second endpoint t
    rcases hq : acquire rl 1 10 t with ⟨rl1, b⟩
    cases b
    · delta makeRequest
      rw [hq]
    · cases htv : tokenValue env.accessToken
      · delta makeRequest
        rw [hq, htv]
      · delta makeRequest
        rw [hq, htv]
  · intro rl tr env resp second endpoint t rl1 tok hq htok
    delta makeRequest
    rw [hq, htok]
    simp only []
    repeat' split
    all_goals rfl

/-- Witness for `usage_recording_amended`: one concrete run per path. -/
theorem usage_recording_amended_witness :
    ((makeRequest zeroLimiter emptyTracker happyAuth (.ok okResponse)
       (.ok okResponse) "inventory_item" 0).tracker = emptyTracker) ∧
    ((makeRequest readyLimiter emptyTracker noAuth (.ok okResponse)
       (.ok okResponse) "inventory_item" 0).tracker = emptyTracker) ∧
    ((makeRequest readyLimiter emptyTracker happyAuth (.error "connection refused")
       (.ok okResponse) "inventory_item" 0).tracker = emptyTracker) ∧
    ((makeRequest readyLimiter emptyTracker happyAuth (.ok resp500)
       (.ok okResponse) "inventory_item" 0).tracker =
       record_request emptyTracker 0 "inventory_item" resp500.status_code) := by
  refine ⟨usage_recording_amended.1 zeroLimiter emptyTracker happyAuth
      (.ok okResponse) (.ok okResponse) "inventory_item" 0 zeroLimiter_acquire_false,
    usage_recording_amended.2.1 readyLimiter emptyTracker noAuth
      (.ok okResponse) (.ok okResponse) "inventory_item" 0 rfl,
    usage_recording_amended.2.2.1 readyLimiter emptyTracker happyAuth
      "connection refused" (.ok okResponse) "inventory_item" 0, ?_⟩
  exact usage_recording_amended.2.2.2 readyLimiter emptyTracker happyAuth resp500
    (.ok okResponse) "inventory_item" 0
    { calls_per_second := 5, burst := 10, tokens := 9, last_update := 0 } "tok"
    (by with_unfolding_all decide) (by with_unfolding_all decide)

/-! ### C2: transport failures and error-type taxonomy -/

/-- C2 counterexample: a network-level transport failure (no HTTP response
exists) and a plain HTTP 500 response surface as the same exception type,
`EbayAPIError` — the code has no transport-specific error class. -/
theorem transport_error_shares_apierror_type :
    (makeRequest readyLimiter emptyTracker happyAuth (.error "timeout")
      (.ok okResponse) "inventory_item" 0).result =
      .error (.apiError "Request failed: timeout") ∧
    (makeRequest readyLimiter emptyTracker happyAuth (.ok resp500)
      (.ok okResponse) "inventory_item" 0).result =
      .error (.apiError "eBay API error (500): boom") := by
  constructor <;> with_unfolding_all decide

/-- C2 amended: a transport failure on the first request raises
`EbayAPIError` — the same exception type as non-2xx HTTP responses — with the
message `"Request failed: …"`; the code defines no distinct transport error
type. -/
theorem transport_failure_raises_apierror
    (rl : RateLimiter) (tr : RequestTracker) (env : AuthEnv) (e : String)
    (second : Except String HttpResponse) (endpoint : String) (t : ℚ)
    (rl1 : RateLimiter) (tok : String)
    (hq : acquire rl 1 10 t = (rl1, true))
    (htok : tokenValue env.accessToken = some tok) :
    (makeRequest rl tr env (.error e) second endpoint t).result =
      .error (.apiError ("Request failed: " ++ e)) := by
  delta makeRequest
  rw [hq, htok]

/-- Witness for `transport_failure_raises_apierror`. -/
theorem transport_failure_raises_apierror_witness :
    (makeRequest readyLimiter emptyTracker happyAuth (.error "connection refused")
      (.ok okResponse) "inventory_item" 0).result =
      .error (.apiError ("Request failed: " ++ "connection refused")) :=
  transport_failure_raises_apierror readyLimiter emptyTracker happyAuth
    "connection refused" (.ok okResponse) "inventory_item" 0
    { calls_per_second := 5, burst := 10, tokens := 9, last_update := 0 } "tok"
    (by with_unfolding_all decide) (by with_unfolding_all decide)

/-! ### C3 and C9: the single 401-triggered retry -/

/-- C3: when the first request returns 401 and a refreshed credential is
available, the call retries exactly once: a 2xx retry returns the parsed body
with two HTTP attempts and one refresh call; a second 401 raises
`EbayAuthError` with two attempts, one refresh call, and no further retry. -/
theorem retry_after_401 :
    (∀ (rl : RateLimiter) (tr : RequestTracker) (env : AuthEnv)
       (r1 r2 : HttpResponse) (endpoint : String) (t : ℚ) (rl1 : RateLimiter)
       (tok tok2 : String) (b : Bool),
       acquire rl 1 10 t = (rl1, true) →
       tokenValue env.accessToken = some tok →
       r1.status_code = 401 →
       env.refreshResult = .ok b →
       tokenValue env.accessTokenAfterRefresh = some tok2 →
       200 ≤ r2.status_code → r2.status_code < 300 →
       (makeRequest rl tr env (.ok r1) (.ok r2) endpoint t).result = parse2xxBody r2 ∧
       (makeRequest rl tr env (.ok r1) (.ok r2) endpoint t).httpAttempts = 2 ∧
       (makeRequest rl tr env (.ok r1) (.ok r2) endpoint t).refreshCalls = 1) ∧
    (∀ (rl : RateLimiter) (tr : RequestTracker) (env : AuthEnv)
       (r1 r2 : HttpResponse) (endpoint : String) (t : ℚ) (rl1 : RateLimiter)
       (tok tok2 : String) (b : Bool),
       acquire rl 1 10 t = (rl1, true) →
       tokenValue env.accessToken = some tok →
       r1.status_code = 401 →
       env.refreshResult = .ok b →
       tokenValue env.accessTokenAfterRefresh = some tok2 →
       r2.status_code = 401 →
       (makeRequest rl tr env (.ok r1) (.ok r2) endpoint t).result =
         .error (.authError "Authentication failed after token refresh") ∧
       (makeRequest rl tr env (.ok r1) (.ok r2) endpoint t).httpAttempts = 2 ∧
       (makeRequest rl tr env (.ok r1) (.ok r2) endpoint t).refreshCalls = 1) := by
  constructor
  · intro rl tr env r1 r2 endpoint t rl1 tok tok2 b hq htok h401 href htok2 h2a h2b
    delta makeRequest
    rw [hq, htok]
    simp only []
    rw [h401, if_neg (by decide : ¬((401:ℤ) = 204)),
      if_neg (by decide : ¬((200:ℤ) ≤ 401 ∧ (401:ℤ) < 300)),
      if_pos (rfl : (401:ℤ) = 401), href]
    simp only []
    rw [htok2]
    simp only []
    rw [if_pos ⟨h2a, h2b⟩]
    exact ⟨rfl, rfl, rfl⟩
  · intro rl tr env r1 r2 endpoint t rl1 tok tok2 b hq htok h401 href htok2 h2
    delta makeRequest
    rw [hq, htok]
    simp only []
    rw [h401, if_neg (by decide : ¬((401:ℤ) = 204)),
      if_neg (by decide : ¬((200:ℤ) ≤ 401 ∧ (401:ℤ) < 300)),
      if_pos (rfl : (401:ℤ) = 401), href]
    simp only []
    rw [htok2]
    simp only []
    rw [h2, if_neg (by decide : ¬((200:ℤ) ≤ 401 ∧ (401:ℤ) < 300))]
    exact ⟨rfl, rfl, rfl⟩

/-- Witness for `retry_after_401`: a 401 answered by a 200 on retry, and a
401 answered by another 401. -/
theorem retry_after_401_witness :
    ((makeRequest readyLimiter emptyTracker happyAuth (.ok resp401)
       (.ok okResponse) "inventory_item" 0).result = .ok (some "body") ∧
     (makeRequest readyLimiter emptyTracker happyAuth (.ok resp401)
       (.ok okResponse) "inventory_item" 0).httpAttempts = 2 ∧
     (makeRequest readyLimiter emptyTracker happyAuth (.ok resp401)
       (.ok okResponse) "inventory_item" 0).refreshCalls = 1) ∧
    ((makeRequest readyLimiter emptyTracker happyAuth (.ok resp401)
       (.ok resp401) "inventory_item" 0).result =
       .error (.authError "Authentication failed after token refresh") ∧
     (makeRequest readyLimiter emptyTracker happyAuth (.ok resp401)
       (.ok resp401) "inventory_item" 0).httpAttempts = 2 ∧
     (makeRequest readyLimiter emptyTracker happyAuth (.ok resp401)
       (.ok resp401) "inventory_item" 0).refreshCalls = 1) := by
  have h1 := retry_after_401.1 readyLimiter emptyTracker happyAuth resp401
    okResponse "inventory_item" 0
    { calls_per_second := 5, burst := 10, tokens := 9, last_update := 0 }
    "tok" "tok2" true
    (by with_unfolding_all decide) (by with_unfolding_all decide)
    (by with_unfolding_all decide) (by with_unfolding_all decide)
    (by with_unfolding_all decide) (by with_unfolding_all decide)
    (by with_unfolding_all decide)
  have h2 := retry_after_401.2 readyLimiter emptyTracker happyAuth resp401
    resp401 "inventory_item" 0
    { calls_per_second := 5, burst := 10, tokens := 9, last_update := 0 }
    "tok" "tok2" true
    (by with_unfolding_all decide) (by with_unfolding_all decide)
    (by with_unfolding_all decide) (by with_unfolding_all decide)
    (by with_unfolding_all decide) (by with_unfolding_all decide)
  exact ⟨⟨h1.1.trans (by with_unfolding_all decide), h1.2.1, h1.2.2⟩, h2⟩

/-- C9: after a 401 and a successful refresh, every non-2xx status of the
retried request — 404, 429 and 5xx alike — raises `EbayAuthError`
("Authentication failed after token refresh"); retry responses are never
re-classified as `EbayRateLimitError` or `EbayAPIError` by their status. -/
theorem retry_nonsuccess_always_auth_error
    (rl : RateLimiter) (tr : RequestTracker) (env : AuthEnv)
    (r1 r2 : HttpResponse) (endpoint : String) (t : ℚ) (rl1 : RateLimiter)
    (tok tok2 : String) (b : Bool)
    (hq : acquire rl 1 10 t = (rl1, true))
    (htok : tokenValue env.accessToken = some tok)
    (h401 : r1.status_code = 401)
    (href : env.refreshResult = .ok b)
    (htok2 : tokenValue env.accessTokenAfterRefresh = some tok2)
    (hns : ¬(200 ≤ r2.status_code ∧ r2.status_code < 300)) :
    (makeRequest rl tr env (.ok r1) (.ok r2) endpoint t).result =
      .error (.authError "Authentication failed after token refresh") ∧
    (makeRequest rl tr env (.ok r1) (.ok r2) endpoint t).httpAttempts = 2 ∧
    (makeRequest rl tr env (.ok r1) (.ok r2) endpoint t).refreshCalls = 1 := by
  delta makeRequest
  rw [hq, htok]
  simp only []
  rw [h401, if_neg (by decide : ¬((401:ℤ) = 204)),
    if_neg (by decide : ¬((200:ℤ) ≤ 401 ∧ (401:ℤ) < 300)),
    if_pos (rfl : (401:ℤ) = 401), href]
  simp only []
  rw [htok2]
  simp only []
  rw [if_neg hns]
  exact ⟨rfl, rfl, rfl⟩

/-- Witness for `retry_nonsuccess_always_auth_error`: the retry returns 429,
yet the call raises `EbayAuthError`, not `EbayRateLimitError`. -/
theorem retry_nonsuccess_always_auth_error_witness :
    (makeRequest readyLimiter emptyTracker happyAuth (.ok resp401)
      (.ok resp429) "inventory_item" 0).result =
      .error (.authError "Authentication failed after token refresh") ∧
    (makeRequest readyLimiter emptyTracker happyAuth (.ok resp401)
      (.ok resp429) "inventory_item" 0).httpAttempts = 2 ∧
    (makeRequest readyLimiter emptyTracker happyAuth (.ok resp401)
      (.ok resp429) "inventory_item" 0).refreshCalls = 1 :=
  retry_nonsuccess_always_auth_error readyLimiter emptyTracker happyAuth
    resp401 resp429 "inventory_item" 0
    { calls_per_second := 5, burst := 10, tokens := 9, last_update := 0 }
    "tok" "tok2" true
    (by with_unfolding_all decide) (by with_unfolding_all decide)
    (by with_unfolding_all decide) (by with_unfolding_all decide)
    (by with_unfolding_all decide) (by with_unfolding_all decide)

end ResellerOS
